import Mathlib

/-!
Verification of the attendance-tracker business rules (sign-in / sign-out
geofence and WFH logic, timesheet gate, hours computation, WFH approval
lookup, reporting aggregation) against a shallow embedding of the source.

Modelling conventions:
* Timestamps are integers (seconds); durations become rationals when the
  source divides by 3600.  Python float arithmetic on these quantities is
  modelled by exact rational arithmetic, and Python round(x, 2) by
  round-half-to-even at two decimal places.
* The document store holds at most the documents matching the
  (employee_id, date) equality query of the current request, as a list;
  find_by_employee_and_date returns the first matching document (head?).
* The geofence evaluator result for the request coordinates is passed as a
  boolean argument (its transcendental Haversine core is floating point);
  the office-list containment loop itself is embedded separately,
  parametrised by the distance function.
* Option models Python None; the empty string models a missing/None string
  field where the source tests string truthiness.
-/

/-- Python int() on a rational: truncation toward zero. -/
def pyInt (q : ℚ) : ℤ := if 0 ≤ q then ⌊q⌋ else ⌈q⌉

/-- Round a rational to the nearest integer, ties to even (Python banker's rounding). -/
def roundHalfEven (q : ℚ) : ℤ :=
  if q - ⌊q⌋ < 1/2 then ⌊q⌋
  else if 1/2 < q - ⌊q⌋ then ⌊q⌋ + 1
  else if ⌊q⌋ % 2 = 0 then ⌊q⌋ else ⌊q⌋ + 1

/-- Python round(q, ndigits) for a nonnegative digit count. -/
def pyRound (ndigits : ℕ) (q : ℚ) : ℚ :=
  (roundHalfEven (q * 10 ^ ndigits) : ℚ) / 10 ^ ndigits

/-- FirebaseAttendance document (fields as stored per employee and date). -/
structure Attendance where
  employee_id : String := ""
  date : String := ""
  sign_in_time : Option ℤ := none
  sign_out_time : Option ℤ := none
  total_hours : Option ℚ := none
  work_location : String := "office"
  wfh_approved : Bool := false
deriving DecidableEq, Repr

/-- Outcome of the employee_signin POST handler (each constructor is one
flash/render path of the source: the two confirmation prompts, the geofence
denial "Sign-in denied: You are not within any office location.", the
"You have already signed in today!" rejection, success, and save failure). -/
inductive SigninResult where
  | confirmPrompt
  | denied
  | alreadySignedIn
  | success
  | saveError
deriving DecidableEq, Repr

/-- Embedding of the employee_signin POST handler of app.py (the hardened
variant).  Arguments: the WFH-approval lookup result for today, the
self-declared WFH checkbox, the confirm_office acknowledgment flag, the
geofence evaluator result for the request coordinates, the store contents
for (employee, today), the current time, and whether the store write
succeeds.  Returns the outcome and the new store contents. -/
def employee_signin (admin_approved_wfh work_from_home_checkbox confirm_office : Bool)
    (within_geofence : Bool) (store : List Attendance) (now : ℤ) (save_ok : Bool) :
    SigninResult × List Attendance :=
  let work_from_home := work_from_home_checkbox && admin_approved_wfh
  if admin_approved_wfh && !work_from_home_checkbox && !confirm_office then
    (.confirmPrompt, store)
  else if work_from_home_checkbox && !admin_approved_wfh && !confirm_office then
    (.confirmPrompt, store)
  else if !work_from_home && !within_geofence then
    (.denied, store)
  else
    match store with
    | [] =>
      let attendance : Attendance :=
        { sign_in_time := some now
          sign_out_time := none
          total_hours := none
          work_location := if work_from_home then "home" else "office"
          wfh_approved := work_from_home }
      if save_ok then (.success, [attendance]) else (.saveError, store)
    | existing :: rest =>
      if existing.sign_in_time.isSome then (.alreadySignedIn, store)
      else
        let attendance :=
          { existing with
              sign_in_time := some now
              work_location := if work_from_home then "home" else "office"
              wfh_approved := work_from_home }
        if save_ok then (.success, attendance :: rest) else (.saveError, store)

/-- Outcome of the employee_signout POST handler (one constructor per
flash/render path of the source: the geofence denial "Sign-out denied: You
are not within any office location.", the "You have not signed in today!"
rejection, the "You have already signed out today!" rejection, the
timesheet-gate render with show_timesheet_requirement set to True, success
carrying the surfaced integer hours and minutes, save failure, and the
"Error calculating working hours" path). -/
inductive SignoutResult where
  | denied
  | notSignedIn
  | alreadySignedOut
  | timesheetRequired
  | success (hours minutes : ℤ)
  | saveError
  | calcError
deriving DecidableEq, Repr

/-- Effective work-from-home for sign-out, exactly as computed inline in the
source: (attendance.work_location == 'home' if attendance else False) or
admin-approved-for-today. -/
def signout_effective_wfh (attendance : Option Attendance) (admin_approved_wfh : Bool) : Bool :=
  (match attendance with
   | some a => a.work_location == "home"
   | none => false) || admin_approved_wfh

/-- Body of the employee_signout handler after the geofence gate: the
attendance preconditions in source order (not signed in, already signed
out, timesheet gate), then the hours computation and persistence. -/
def signout_after_gate (require_timesheet has_timesheet : Bool)
    (store : List Attendance) (now : ℤ) (save_ok : Bool) :
    SignoutResult × List Attendance :=
  match store with
  | [] => (.notSignedIn, store)
  | attendance :: rest =>
    if attendance.sign_in_time.isNone then (.notSignedIn, store)
    else if attendance.sign_out_time.isSome then (.alreadySignedOut, store)
    else if require_timesheet && !has_timesheet then (.timesheetRequired, store)
    else
      match attendance.sign_in_time with
      | some t1 =>
        let total_hours : ℚ := ((now - t1 : ℤ) : ℚ) / 3600
        let hours := pyInt total_hours
        let minutes := pyInt ((total_hours - hours) * 60)
        let updated :=
          { attendance with
              sign_out_time := some now
              total_hours := some (pyRound 2 total_hours) }
        if save_ok then (.success hours minutes, updated :: rest)
        else (.saveError, store)
      | none => (.calcError, store)

/-- Embedding of the employee_signout POST handler of app.py: the effective
WFH computation, the geofence gate, then the attendance preconditions and
hours computation of signout_after_gate. -/
def employee_signout (admin_approved_wfh within_geofence : Bool)
    (require_timesheet has_timesheet : Bool)
    (store : List Attendance) (now : ℤ) (save_ok : Bool) :
    SignoutResult × List Attendance :=
  let work_from_home := signout_effective_wfh store.head? admin_approved_wfh
  if !work_from_home && !within_geofence then (.denied, store)
  else signout_after_gate require_timesheet has_timesheet store now save_ok

/-- Office location entry from the configuration list. -/
structure OfficeLocation where
  name : String
  latitude : ℚ
  longitude : ℚ
  radius_meters : ℚ
deriving DecidableEq, Repr

namespace Config

/-- Timesheet-requirement configuration flag from config.py. -/
def REQUIRE_TIMESHEET_FOR_SIGNOUT : Bool := true

/-- Configured office locations from config.py. -/
def OFFICE_LOCATIONS : List OfficeLocation :=
  [{ name := "Home Office", latitude := 12.9040293, longitude := 77.5634288,
     radius_meters := 1000 },
   { name := "college", latitude := 13.11734540585317, longitude := 77.6361704517549,
     radius_meters := 1000 }]

end Config

/-- Embedding of Config.is_within_office_location: iterate over the office
list in configured order and return at the first office whose radius
contains the point.  The Haversine distance computation (floating-point
trigonometry in the source) is abstracted as the calculate_distance
argument; only the loop and the containment comparison are embedded. -/
def is_within_office_location (calculate_distance : ℚ → ℚ → ℚ → ℚ → ℚ)
    (offices : List OfficeLocation) (user_latitude user_longitude : ℚ) :
    Bool × Option String :=
  match offices with
  | [] => (false, none)
  | office :: rest =>
    if calculate_distance user_latitude user_longitude office.latitude office.longitude
        ≤ office.radius_meters then
      (true, some office.name)
    else
      is_within_office_location calculate_distance rest user_latitude user_longitude

/-- FirebaseWFHApproval document.  The empty string models a missing or
None start_date/end_date field (both are falsy in the source's truthiness
test). -/
structure WFHApproval where
  employee_id : String
  start_date : String
  end_date : String
  approved_by : String := ""
deriving DecidableEq, Repr

/-- Firestore equality query on employee_id used by
get_wfh_approvals_by_employee in firebase_service.py. -/
def get_wfh_approvals_by_employee (approvals : List WFHApproval) (employee_id : String) :
    List WFHApproval :=
  approvals.filter (fun ap => ap.employee_id == employee_id)

/-- Embedding of FirebaseWFHApproval.is_approved_for_date: some approval
returned by the employee query has truthy start and end dates with
start_date <= date_str <= end_date under lexicographic string comparison. -/
def is_approved_for_date (approvals : List WFHApproval) (employee_id date_str : String) :
    Bool :=
  (get_wfh_approvals_by_employee approvals employee_id).any fun ap =>
    (!(ap.start_date == "")) && (!(ap.end_date == "")) &&
      decide (ap.start_date ≤ date_str) && decide (date_str ≤ ap.end_date)

/-- Clock hour of a timestamp in seconds (datetime .hour field). -/
def dtHour (t : ℤ) : ℤ := (t % 86400) / 3600

/-- Clock minute of a timestamp in seconds (datetime .minute field). -/
def dtMinute (t : ℤ) : ℤ := (t % 3600) / 60

/-- Python format {:02d} on the small nonnegative values produced by the
averaging code. -/
def format02 (n : ℤ) : String :=
  if 0 ≤ n ∧ n < 10 then "0" ++ toString n else toString n

/-- Statistics dictionary built by the employee_attendance view. -/
structure AttStats where
  total_days : ℕ
  total_hours : ℚ
  complete_days : ℕ
  avg_hours_per_day : ℚ
  avg_signin_time : String
  avg_signout_time : String
deriving DecidableEq, Repr

/-- Embedding of the statistics computation of the employee_attendance view
in app.py: totals, complete-day count, average hours per day, and average
sign-in/out times taken as the independent means of the hour and minute
components, formatted HH:MM, defaulting to 09:00 and 17:00 when no data
exists. -/
def employee_attendance_stats (attendance_records : List Attendance) : AttStats :=
  let total_days := attendance_records.length
  let total_hours := (attendance_records.map (fun r => r.total_hours.getD 0)).sum
  let complete_days :=
    (attendance_records.filter
      (fun r => r.sign_in_time.isSome && r.sign_out_time.isSome)).length
  let avg_hours_per_day : ℚ := if total_days > 0 then total_hours / total_days else 0
  let signin_times := attendance_records.filterMap (fun r => r.sign_in_time)
  let signout_times := attendance_records.filterMap (fun r => r.sign_out_time)
  let avg_signin_time :=
    if signin_times.isEmpty then "09:00"
    else
      let avg_hour : ℚ := ((signin_times.map (fun t => ((dtHour t : ℤ) : ℚ))).sum) /
        signin_times.length
      let avg_minute : ℚ := ((signin_times.map (fun t => ((dtMinute t : ℤ) : ℚ))).sum) /
        signin_times.length
      format02 (pyInt avg_hour) ++ ":" ++ format02 (pyInt avg_minute)
  let avg_signout_time :=
    if signout_times.isEmpty then "17:00"
    else
      let avg_hour : ℚ := ((signout_times.map (fun t => ((dtHour t : ℤ) : ℚ))).sum) /
        signout_times.length
      let avg_minute : ℚ := ((signout_times.map (fun t => ((dtMinute t : ℤ) : ℚ))).sum) /
        signout_times.length
      format02 (pyInt avg_hour) ++ ":" ++ format02 (pyInt avg_minute)
  { total_days := total_days
    total_hours := total_hours
    complete_days := complete_days
    avg_hours_per_day := avg_hours_per_day
    avg_signin_time := avg_signin_time
    avg_signout_time := avg_signout_time }

/-- Spec example record set for reporting: total_hours 8.0, 7.5 and null. -/
def attendance_example_records : List Attendance :=
  [{ total_hours := some 8 }, { total_hours := some (15/2) }, { total_hours := none }]

/-- Helper for evaluating roundHalfEven on concrete inputs (round-down case). -/
theorem roundHalfEven_eq_of_lt (q : ℚ) (f : ℤ) (h1 : ⌊q⌋ = f) (h2 : q - f < 1/2) :
    roundHalfEven q = f := by
  rw [roundHalfEven, h1, if_pos h2]

/-- Helper for evaluating roundHalfEven on concrete inputs (round-up case). -/
theorem roundHalfEven_eq_of_gt (q : ℚ) (f : ℤ) (h1 : ⌊q⌋ = f) (h2 : 1/2 < q - f) :
    roundHalfEven q = f + 1 := by
  have h3 : ¬ (q - (f:ℚ) < 1/2) := not_lt.mpr (le_of_lt h2)
  rw [roundHalfEven, h1, if_neg h3, if_pos h2]

/-- Helper: pyInt coincides with the floor on nonnegative rationals. -/
theorem pyInt_eq_floor (q : ℚ) (h : 0 ≤ q) : pyInt q = ⌊q⌋ := by
  simp [pyInt, h]

/-- C10: the geofence boundary is inclusive: whenever the distance computed
for some configured office equals exactly that office's radius_meters, the
containment loop of Config.is_within_office_location classifies the point
as within office, because the test is distance <= radius rather than a
strict inequality. -/
theorem geofence_boundary_inclusive (calculate_distance : ℚ → ℚ → ℚ → ℚ → ℚ)
    (offices : List OfficeLocation) (user_latitude user_longitude : ℚ)
    (office : OfficeLocation) (hmem : office ∈ offices)
    (hdist : calculate_distance user_latitude user_longitude office.latitude office.longitude
      = office.radius_meters) :
    (is_within_office_location calculate_distance offices user_latitude user_longitude).1
      = true := by
  induction offices with
  | nil => simp at hmem
  | cons o rest ih =>
    by_cases h : calculate_distance user_latitude user_longitude o.latitude o.longitude
        ≤ o.radius_meters
    · simp [is_within_office_location, h]
    · rcases List.mem_cons.mp hmem with h1 | h1
      · subst h1
        exact absurd (le_of_eq hdist) h
      · simpa [is_within_office_location, h] using ih h1

/-- Witness for C10 at the configured office list: a point put at exactly
radius distance (1000 m) from the first configured office is classified as
within office. -/
theorem geofence_boundary_inclusive_witness :
    (is_within_office_location (fun _ _ _ _ => 1000) Config.OFFICE_LOCATIONS 0 0).1 = true :=
  geofence_boundary_inclusive (fun _ _ _ _ => 1000) Config.OFFICE_LOCATIONS 0 0
    { name := "Home Office", latitude := 12.9040293, longitude := 77.5634288,
      radius_meters := 1000 }
    (by simp [Config.OFFICE_LOCATIONS]) rfl

/-- C8: is_approved_for_date returns true exactly when some stored approval
belonging to the employee has start_date <= d <= end_date under
lexicographic string comparison (both ends inclusive), given that stored
approvals carry actual (nonempty) date strings; approvals of other
employees never produce a match, and an approval with start_date greater
than end_date matches no date. -/
theorem is_approved_for_date_spec (approvals : List WFHApproval)
    (employee_id date_str : String)
    (hdates : ∀ ap ∈ approvals, ap.start_date ≠ "" ∧ ap.end_date ≠ "") :
    (is_approved_for_date approvals employee_id date_str = true ↔
      ∃ ap ∈ approvals, ap.employee_id = employee_id ∧
        ap.start_date ≤ date_str ∧ date_str ≤ ap.end_date) ∧
    (∀ ap ∈ approvals, ap.employee_id ≠ employee_id →
      ¬ (ap.employee_id = employee_id ∧ ap.start_date ≤ date_str ∧
          date_str ≤ ap.end_date)) ∧
    (∀ ap ∈ approvals, ap.end_date < ap.start_date →
      ¬ (ap.start_date ≤ date_str ∧ date_str ≤ ap.end_date)) := by
  refine ⟨?_, fun ap _ hne hc => hne hc.1,
    fun ap _ hlt hc => absurd (le_trans hc.1 hc.2) (not_le.mpr hlt)⟩
  simp only [is_approved_for_date, get_wfh_approvals_by_employee, List.any_eq_true,
    List.mem_filter, Bool.and_eq_true, decide_eq_true_eq, Bool.not_eq_true', beq_iff_eq,
    beq_eq_false_iff_ne, ne_eq]
  constructor
  · rintro ⟨ap, ⟨hmem, heq⟩, ⟨⟨_, _⟩, h1⟩, h2⟩
    exact ⟨ap, hmem, heq, h1, h2⟩
  · rintro ⟨ap, hmem, he, h1, h2⟩
    exact ⟨ap, ⟨hmem, he⟩, ⟨⟨(hdates ap hmem).1, (hdates ap hmem).2⟩, h1⟩, h2⟩

/-- Witness for C8 on a concrete one-approval store: the lookup answers
true inside the range, and the characterisation holds. -/
theorem is_approved_for_date_spec_witness :
    (∀ ap ∈ [WFHApproval.mk "EMP001" "2026-01-01" "2026-01-31" "admin"],
      ap.start_date ≠ "" ∧ ap.end_date ≠ "") ∧
    (is_approved_for_date [WFHApproval.mk "EMP001" "2026-01-01" "2026-01-31" "admin"]
        "EMP001" "2026-01-15" = true ↔
      ∃ ap ∈ [WFHApproval.mk "EMP001" "2026-01-01" "2026-01-31" "admin"],
        ap.employee_id = "EMP001" ∧
        ap.start_date ≤ "2026-01-15" ∧ "2026-01-15" ≤ ap.end_date) :=
  ⟨by decide,
   (is_approved_for_date_spec [WFHApproval.mk "EMP001" "2026-01-01" "2026-01-31" "admin"]
     "EMP001" "2026-01-15" (by decide)).1⟩

/-- C1 counterexample: with the self-declared WFH checkbox set but no admin
approval and no confirm_office acknowledgment, effective WFH is false and
the coordinates are outside every office, yet the hardened sign-in answers
with the confirmation prompt instead of consulting the geofence and
rejecting with the Sign-in denied message. -/
theorem signin_wfh_geofence_counterexample :
    (true && false) = false ∧
    employee_signin false true false false [] 0 true = (SigninResult.confirmPrompt, []) ∧
    SigninResult.confirmPrompt ≠ SigninResult.denied := by
  decide

/-- C1 amended: for sign-in requests that pass the disambiguation gate
(admin approval and checkbox agree, or confirm_office is set), effective
WFH equals checkbox AND admin approval; when it is true the geofence result
is irrelevant (the check is skipped), when it is false and the coordinates
are outside every office the sign-in is rejected with the Sign-in denied
message; and any record written by a successful sign-in mirrors effective
WFH in its wfh_approved flag. -/
theorem signin_effective_wfh_geofence
    (admin_approved_wfh work_from_home_checkbox confirm_office : Bool)
    (hgate : admin_approved_wfh = work_from_home_checkbox ∨ confirm_office = true) :
    (∀ within store now save_ok,
      (work_from_home_checkbox && admin_approved_wfh) = true →
        employee_signin admin_approved_wfh work_from_home_checkbox confirm_office
            within store now save_ok
          = employee_signin admin_approved_wfh work_from_home_checkbox confirm_office
            true store now save_ok) ∧
    (∀ store now save_ok,
      (work_from_home_checkbox && admin_approved_wfh) = false →
        employee_signin admin_approved_wfh work_from_home_checkbox confirm_office
            false store now save_ok
          = (.denied, store)) ∧
    (∀ within store now save_ok rec,
      (employee_signin admin_approved_wfh work_from_home_checkbox confirm_office
          within store now save_ok).1 = .success →
      (employee_signin admin_approved_wfh work_from_home_checkbox confirm_office
          within store now save_ok).2.head? = some rec →
      rec.wfh_approved = (work_from_home_checkbox && admin_approved_wfh)) := by
  refine ⟨?_, ?_, ?_⟩
  · intro within store now save_ok hwfh
    cases admin_approved_wfh <;> cases work_from_home_checkbox <;>
      simp_all [employee_signin]
  · intro store now save_ok hwfh
    cases admin_approved_wfh <;> cases work_from_home_checkbox <;> cases confirm_office <;>
      simp_all [employee_signin]
  · intro within store now save_ok rec hsucc hhead
    cases store with
    | nil =>
      cases admin_approved_wfh <;> cases work_from_home_checkbox <;> cases confirm_office <;>
        cases within <;> cases save_ok <;> simp_all [employee_signin] <;>
        (try (subst hhead; rfl))
    | cons existing rest =>
      by_cases hs : existing.sign_in_time.isSome <;>
        (cases admin_approved_wfh <;> cases work_from_home_checkbox <;>
          cases confirm_office <;> cases within <;> cases save_ok <;>
          simp_all [employee_signin] <;> (try (subst hhead; rfl)))

/-- Witness for C1 at a concrete office sign-in: both flags unset, outside
any office, request denied. -/
theorem signin_effective_wfh_geofence_witness :
    employee_signin false false false false [] 0 true = (SigninResult.denied, []) :=
  (signin_effective_wfh_geofence false false false (Or.inl rfl)).2.1 [] 0 true rfl

/-- C4: when exactly one of admin approval and the WFH checkbox is set and
the confirm_office acknowledgment is absent, sign-in stops at the
confirmation prompt and the store is untouched; the same request with the
acknowledgment set behaves exactly like a plain office sign-in request (no
WFH flags involved), and any record it writes on success is classified
office with wfh_approved false. -/
theorem signin_disambiguation (admin_approved_wfh work_from_home_checkbox : Bool)
    (hxor : admin_approved_wfh ≠ work_from_home_checkbox) :
    (∀ within store now save_ok,
      employee_signin admin_approved_wfh work_from_home_checkbox false
          within store now save_ok
        = (.confirmPrompt, store)) ∧
    (∀ within store now save_ok,
      employee_signin admin_approved_wfh work_from_home_checkbox true
          within store now save_ok
        = employee_signin false false false within store now save_ok) ∧
    (∀ within store now save_ok rec,
      (employee_signin admin_approved_wfh work_from_home_checkbox true
          within store now save_ok).1 = .success →
      (employee_signin admin_approved_wfh work_from_home_checkbox true
          within store now save_ok).2.head? = some rec →
      rec.work_location = "office" ∧ rec.wfh_approved = false) := by
  refine ⟨?_, ?_, ?_⟩
  · intro within store now save_ok
    cases admin_approved_wfh <;> cases work_from_home_checkbox <;>
      first
        | exact absurd rfl hxor
        | simp_all [employee_signin]
  · intro within store now save_ok
    cases admin_approved_wfh <;> cases work_from_home_checkbox <;>
      first
        | exact absurd rfl hxor
        | simp_all [employee_signin]
  · intro within store now save_ok rec hsucc hhead
    cases store with
    | nil =>
      cases admin_approved_wfh <;> cases work_from_home_checkbox <;>
        first
          | exact absurd rfl hxor
          | (cases within <;> cases save_ok <;> simp_all [employee_signin] <;>
              (try (subst hhead; exact ⟨rfl, rfl⟩)))
    | cons existing rest =>
      cases admin_approved_wfh <;> cases work_from_home_checkbox <;>
        first
          | exact absurd rfl hxor
          | (by_cases hs : existing.sign_in_time.isSome <;>
              (cases within <;> cases save_ok <;>
                simp_all [employee_signin] <;> (try (subst hhead; exact ⟨rfl, rfl⟩))))

/-- Witness for C4: admin approved, checkbox unset, no acknowledgment: the
request answers with the confirmation prompt and the empty store is
untouched. -/
theorem signin_disambiguation_witness :
    employee_signin true false false false [] 0 true = (SigninResult.confirmPrompt, []) :=
  (signin_disambiguation true false (by decide)).1 false [] 0 true

/-- C6 counterexample: an employee already signed in today, outside any
office with no WFH involvement, is rejected by the geofence check with the
Sign-in denied message, not with the already-signed-in message (the
geofence gate runs first in the source). -/
theorem signin_already_counterexample :
    (employee_signin false false false false
        [{ sign_in_time := some 0 }] 5 true)
      = (SigninResult.denied, [{ sign_in_time := some 0 }]) ∧
    SigninResult.denied ≠ SigninResult.alreadySignedIn := by
  decide

/-- C6 amended: a sign-in call never brings the store above one record per
(employee, date), and when the request reaches the attendance precondition
(the confirmation gate passes and effective WFH holds or the coordinates
are inside an office), a sign-in with an already-signed-in record for today
fails with the already-signed-in message, creates no duplicate, and leaves
the store unchanged. -/
theorem signin_no_duplicate
    (admin_approved_wfh work_from_home_checkbox confirm_office within : Bool)
    (store : List Attendance) (now : ℤ) (save_ok : Bool) :
    (store.length ≤ 1 →
      (employee_signin admin_approved_wfh work_from_home_checkbox confirm_office
          within store now save_ok).2.length ≤ 1) ∧
    (∀ a, store.head? = some a → a.sign_in_time.isSome = true →
      (admin_approved_wfh = work_from_home_checkbox ∨ confirm_office = true) →
      ((work_from_home_checkbox && admin_approved_wfh) = true ∨ within = true) →
      employee_signin admin_approved_wfh work_from_home_checkbox confirm_office
          within store now save_ok
        = (.alreadySignedIn, store)) := by
  constructor
  · intro hlen
    cases store with
    | nil =>
      cases admin_approved_wfh <;> cases work_from_home_checkbox <;>
        cases confirm_office <;> cases within <;> cases save_ok <;>
        simp_all [employee_signin]
    | cons existing rest =>
      by_cases hs : existing.sign_in_time.isSome <;>
        (cases admin_approved_wfh <;> cases work_from_home_checkbox <;>
          cases confirm_office <;> cases within <;> cases save_ok <;>
          simp_all [employee_signin])
  · intro a hhead hsigned hgate hpass
    cases store with
    | nil => simp at hhead
    | cons existing rest =>
      have ha : existing = a := by simpa using hhead
      subst ha
      cases admin_approved_wfh <;> cases work_from_home_checkbox <;>
        cases confirm_office <;> cases within <;>
        simp_all [employee_signin]

/-- Witness for C6: one already-signed-in record, request inside the
geofence with no WFH flags: rejected as already signed in, store kept as
is. -/
theorem signin_no_duplicate_witness :
    (([({ sign_in_time := some 0 } : Attendance)]).length ≤ 1 →
      (employee_signin false false false true
          [({ sign_in_time := some 0 } : Attendance)] 5 true).2.length ≤ 1) ∧
    employee_signin false false false true [({ sign_in_time := some 0 } : Attendance)] 5 true
      = (.alreadySignedIn, [({ sign_in_time := some 0 } : Attendance)]) :=
  ⟨(signin_no_duplicate false false false true
      [({ sign_in_time := some 0 } : Attendance)] 5 true).1,
   (signin_no_duplicate false false false true
      [({ sign_in_time := some 0 } : Attendance)] 5 true).2
     { sign_in_time := some 0 } rfl rfl (Or.inl rfl) (Or.inr rfl)⟩

/-- Helper: no outcome of the post-gate sign-out body is the geofence
denial. -/
theorem signout_after_gate_ne_denied (require_timesheet has_timesheet : Bool)
    (store : List Attendance) (now : ℤ) (save_ok : Bool) :
    (signout_after_gate require_timesheet has_timesheet store now save_ok).1
      ≠ SignoutResult.denied := by
  cases store with
  | nil => simp [signout_after_gate]
  | cons a rest =>
    unfold signout_after_gate
    repeat' split
    all_goals simp

/-- C2: the effective work-from-home flag for sign-out holds exactly when
the existing attendance record is classified home or the employee is
admin-approved for today; when the flag is true the geofence result is
irrelevant and the request is never rejected by the geofence, and when the
flag is false the geofence check is live: coordinates outside every office
are rejected with the Sign-out denied message and coordinates within an
office are never so rejected. -/
theorem signout_wfh_or_geofence (admin_approved_wfh : Bool) (store : List Attendance) :
    (signout_effective_wfh store.head? admin_approved_wfh = true ↔
      (∃ a, store.head? = some a ∧ a.work_location = "home") ∨ admin_approved_wfh = true) ∧
    (∀ require_timesheet has_timesheet now save_ok w1 w2,
      signout_effective_wfh store.head? admin_approved_wfh = true →
        employee_signout admin_approved_wfh w1 require_timesheet has_timesheet store now save_ok
          = employee_signout admin_approved_wfh w2 require_timesheet has_timesheet
              store now save_ok) ∧
    (∀ within require_timesheet has_timesheet now save_ok,
      signout_effective_wfh store.head? admin_approved_wfh = true →
        (employee_signout admin_approved_wfh within require_timesheet has_timesheet
            store now save_ok).1 ≠ .denied) ∧
    (∀ require_timesheet has_timesheet now save_ok,
      signout_effective_wfh store.head? admin_approved_wfh = false →
        employee_signout admin_approved_wfh false require_timesheet has_timesheet
            store now save_ok = (.denied, store)) ∧
    (∀ within require_timesheet has_timesheet now save_ok,
      signout_effective_wfh store.head? admin_approved_wfh = false → within = true →
        (employee_signout admin_approved_wfh within require_timesheet has_timesheet
            store now save_ok).1 ≠ .denied) := by
  refine ⟨?_, ?_, ?_, ?_, ?_⟩
  · cases store with
    | nil => simp [signout_effective_wfh]
    | cons a rest => simp [signout_effective_wfh]
  · intro require_timesheet has_timesheet now save_ok w1 w2 h
    simp [employee_signout, h]
  · intro within require_timesheet has_timesheet now save_ok h
    simpa [employee_signout, h] using
      signout_after_gate_ne_denied require_timesheet has_timesheet store now save_ok
  · intro require_timesheet has_timesheet now save_ok h
    simp [employee_signout, h]
  · intro within require_timesheet has_timesheet now save_ok h hw
    subst hw
    simpa [employee_signout, h] using
      signout_after_gate_ne_denied require_timesheet has_timesheet store now save_ok

/-- Witness for C2: an office-classified request with no approval, outside
every office, is denied at sign-out. -/
theorem signout_wfh_or_geofence_witness :
    employee_signout false false true false [] 0 true = (SignoutResult.denied, []) :=
  (signout_wfh_or_geofence false []).2.2.2.1 true false 0 true rfl

/-- C3 counterexample: an employee with no attendance record today, no
approval and coordinates outside every office is rejected by the sign-out
geofence check (Sign-out denied message), not with the not-signed-in
message: the geofence gate runs before precondition (a) in the source. -/
theorem signout_not_signed_in_counterexample :
    employee_signout false false false false [] 0 true = (SignoutResult.denied, []) ∧
    SignoutResult.denied ≠ SignoutResult.notSignedIn := by
  decide

/-- C3 amended: for a sign-out request that passes the geofence gate
(effective WFH true or coordinates within an office), a missing attendance
record or a record without sign-in timestamp fails with the not-signed-in
message and leaves the store unchanged, regardless of any sign-out
timestamp, timesheet state, configuration flag or save outcome — so
precondition (a) fires before (b) and before the timesheet gate (c). -/
theorem signout_not_signed_in_spec (admin_approved_wfh within : Bool)
    (require_timesheet has_timesheet : Bool) (store : List Attendance)
    (now : ℤ) (save_ok : Bool)
    (hnosign : store.head? = none ∨ ∃ a, store.head? = some a ∧ a.sign_in_time = none)
    (hgate : signout_effective_wfh store.head? admin_approved_wfh = true ∨ within = true) :
    employee_signout admin_approved_wfh within require_timesheet has_timesheet
        store now save_ok = (.notSignedIn, store) := by
  cases store with
  | nil =>
    rcases hgate with h | h <;> simp_all [employee_signout, signout_after_gate]
  | cons a rest =>
    rcases hnosign with h | ⟨b, hb, hsig⟩
    · simp at h
    · have hab : a = b := by simpa using hb
      subst hab
      rcases hgate with h | h <;>
        simp_all [employee_signout, signout_after_gate]

/-- Witness for C3: a WFH-approved employee with no record today gets the
not-signed-in rejection even though the geofence was never consulted. -/
theorem signout_not_signed_in_spec_witness :
    employee_signout true false true false [] 0 true = (SignoutResult.notSignedIn, []) :=
  signout_not_signed_in_spec true false true false [] 0 true (Or.inl rfl) (Or.inl rfl)

/-- C5: with the REQUIRE_TIMESHEET_FOR_SIGNOUT flag (true in config.py)
enabled and no timesheet for (employee, today), a sign-out that passed the
signed-in and not-yet-signed-out preconditions — and the geofence, or with
effective WFH — is rejected with the distinguished timesheet-gate outcome
(the render with show_timesheet_requirement) and nothing is persisted: the
record keeps its unset sign-out timestamp and total hours. -/
theorem signout_timesheet_gate (admin_approved_wfh within save_ok : Bool)
    (a : Attendance) (rest : List Attendance) (now t1 : ℤ)
    (hsign : a.sign_in_time = some t1) (hnosignout : a.sign_out_time = none)
    (hgate : signout_effective_wfh (some a) admin_approved_wfh = true ∨ within = true) :
    Config.REQUIRE_TIMESHEET_FOR_SIGNOUT = true ∧
    employee_signout admin_approved_wfh within true false (a :: rest) now save_ok
      = (.timesheetRequired, a :: rest) := by
  refine ⟨rfl, ?_⟩
  rcases hgate with h | h <;>
    simp_all [employee_signout, signout_after_gate]

/-- Witness for C5: a signed-in office record inside the geofence, flag on,
no timesheet: the sign-out is blocked by the timesheet gate and the store
keeps the un-signed-out record. -/
theorem signout_timesheet_gate_witness :
    Config.REQUIRE_TIMESHEET_FOR_SIGNOUT = true ∧
    employee_signout false true true false [({ sign_in_time := some 0 } : Attendance)] 9 true
      = (.timesheetRequired, [({ sign_in_time := some 0 } : Attendance)]) :=
  signout_timesheet_gate false true true { sign_in_time := some 0 } [] 9 0 rfl rfl (Or.inr rfl)

/-- C7 amended: on a successful sign-out, the record stores
total_hours = round((sign_out − sign_in)/3600 seconds, 2) as claimed, but
the surfaced hours and minutes are computed from the UN-rounded quotient:
hours = floor(raw) and minutes = floor((raw − hours) × 60) for the raw
quotient raw = (sign_out − sign_in)/3600 (Python int() truncation, which
is the floor for the nonnegative durations of a same-day sign-out), not
from the rounded stored value. -/
theorem signout_hours_computation (admin_approved_wfh within : Bool)
    (a : Attendance) (rest : List Attendance) (now t1 : ℤ)
    (require_timesheet has_timesheet : Bool)
    (hsign : a.sign_in_time = some t1) (hnosignout : a.sign_out_time = none)
    (hts : (require_timesheet && !has_timesheet) = false)
    (hgate : signout_effective_wfh (some a) admin_approved_wfh = true ∨ within = true)
    (hle : t1 ≤ now) :
    employee_signout admin_approved_wfh within require_timesheet has_timesheet
        (a :: rest) now true
      = (.success ⌊((now - t1 : ℤ) : ℚ) / 3600⌋
           ⌊(((now - t1 : ℤ) : ℚ) / 3600 - (⌊((now - t1 : ℤ) : ℚ) / 3600⌋ : ℤ)) * 60⌋,
         { a with sign_out_time := some now,
                  total_hours := some (pyRound 2 (((now - t1 : ℤ) : ℚ) / 3600)) } :: rest) := by
  have hq : (0:ℚ) ≤ ((now - t1 : ℤ) : ℚ) / 3600 := by
    apply div_nonneg
    · exact_mod_cast sub_nonneg.mpr hle
    · norm_num
  have h1 : pyInt (((now - t1 : ℤ) : ℚ) / 3600) = ⌊((now - t1 : ℤ) : ℚ) / 3600⌋ :=
    pyInt_eq_floor _ hq
  have hq2 : (0:ℚ) ≤ (((now - t1 : ℤ) : ℚ) / 3600 -
      (⌊((now - t1 : ℤ) : ℚ) / 3600⌋ : ℤ)) * 60 := by
    apply mul_nonneg
    · exact sub_nonneg.mpr (Int.floor_le _)
    · norm_num
  have h2 : pyInt ((((now - t1 : ℤ) : ℚ) / 3600 -
      (⌊((now - t1 : ℤ) : ℚ) / 3600⌋ : ℤ)) * 60)
      = ⌊(((now - t1 : ℤ) : ℚ) / 3600 - (⌊((now - t1 : ℤ) : ℚ) / 3600⌋ : ℤ)) * 60⌋ :=
    pyInt_eq_floor _ hq2
  rcases hgate with h | h <;>
    simp_all [employee_signout, signout_after_gate]

/-- Witness for C7 at the spec example: sign-in 09:00:00 (32400 s),
sign-out 17:30:00 (63000 s): stored total_hours 8.5, surfaced 8 hours and
30 minutes. -/
theorem signout_hours_computation_witness :
    employee_signout false true false false
        [({ sign_in_time := some 32400 } : Attendance)] 63000 true
      = (.success 8 30,
         [({ sign_in_time := some 32400, sign_out_time := some 63000,
             total_hours := some (17/2) } : Attendance)]) := by
  have h := signout_hours_computation false true { sign_in_time := some 32400 } []
    63000 32400 false false rfl rfl rfl (Or.inr rfl) (by norm_num)
  rw [h]
  have hq : ((63000 - 32400 : ℤ) : ℚ) / 3600 = 17/2 := by norm_num
  have hf : ⌊(17/2 : ℚ)⌋ = 8 := by
    rw [Int.floor_eq_iff]
    norm_num
  have hf2 : ⌊((17/2 : ℚ) - ((8:ℤ) : ℚ)) * 60⌋ = 30 := by
    have : ((17/2 : ℚ) - ((8:ℤ) : ℚ)) * 60 = ((30:ℤ) : ℚ) := by norm_num
    rw [this, Int.floor_intCast]
  have hr : pyRound 2 (17/2 : ℚ) = 17/2 := by
    have hfl : ⌊(17/2 : ℚ) * 10 ^ 2⌋ = 850 := by
      have : (17/2 : ℚ) * 10 ^ 2 = ((850:ℤ) : ℚ) := by norm_num
      rw [this, Int.floor_intCast]
    have := roundHalfEven_eq_of_lt ((17/2 : ℚ) * 10 ^ 2) 850 hfl (by norm_num)
    rw [pyRound, this]
    norm_num
  rw [hq, hf, hf2, hr]

/-- C7 counterexample: sign-in at 0 s, sign-out at 28798 s (7 h 59 min
58 s): the raw quotient 7.9994 rounds to a stored total_hours of 8.0, yet
the message surfaces 7 hours and 59 minutes — the surfaced hours are not
floor(total_hours) = 8 computed from the stored rounded value, as the
claim reads. -/
theorem signout_hours_counterexample :
    employee_signout false true false false
        [({ sign_in_time := some 0 } : Attendance)] 28798 true
      = (.success 7 59,
         [({ sign_in_time := some 0, sign_out_time := some 28798,
             total_hours := some 8 } : Attendance)]) ∧
    (7:ℤ) ≠ ⌊(8:ℚ)⌋ := by
  constructor
  · have hq0 : (0:ℚ) ≤ (28798 : ℚ) / 3600 := by norm_num
    have hf : ⌊(28798 : ℚ) / 3600⌋ = 7 := by
      rw [Int.floor_eq_iff]
      norm_num
    have h1 : pyInt ((28798 : ℚ) / 3600) = 7 := by
      rw [pyInt_eq_floor _ hq0, hf]
    have hf2 : ⌊((28798 : ℚ) / 3600 - (7 : ℚ)) * 60⌋ = 59 := by
      rw [Int.floor_eq_iff]
      norm_num
    have hq2 : (0:ℚ) ≤ ((28798 : ℚ) / 3600 - (7 : ℚ)) * 60 := by norm_num
    have h2 : pyInt (((28798 : ℚ) / 3600 - (7 : ℚ)) * 60) = 59 := by
      rw [pyInt_eq_floor _ hq2, hf2]
    have hr : pyRound 2 ((28798 : ℚ) / 3600) = 8 := by
      have hfl : ⌊(28798 : ℚ) / 3600 * 10 ^ 2⌋ = 799 := by
        rw [Int.floor_eq_iff]
        norm_num
      have := roundHalfEven_eq_of_gt ((28798 : ℚ) / 3600 * 10 ^ 2) 799 hfl
        (by norm_num)
      rw [pyRound, this]
      norm_num
    simp [employee_signout, signout_after_gate, h1, h2, hr]
  · have : ⌊(8:ℚ)⌋ = 8 := by
      have : (8:ℚ) = ((8:ℤ) : ℚ) := by norm_num
      rw [this, Int.floor_intCast]
    rw [this]
    decide

/-- C9: the reporting aggregator returns total_days = record count,
total_hours = sum of total_hours with null as 0, complete_days = count of
records with both timestamps, avg_hours_per_day = total_hours/total_days
(0 with no records), and 09:00/17:00 average-time defaults with no data;
on the spec example [8.0, 7.5, null] the sum is 15.5 over 3 days and the
average is 31/6, i.e. 5.1667 rounded to four decimal places. -/
theorem employee_attendance_stats_spec :
    (∀ records : List Attendance,
      (employee_attendance_stats records).total_days = records.length ∧
      (employee_attendance_stats records).total_hours
        = records.foldr (fun r acc => r.total_hours.getD 0 + acc) 0 ∧
      (employee_attendance_stats records).complete_days
        = records.countP (fun r => r.sign_in_time.isSome && r.sign_out_time.isSome) ∧
      (records ≠ [] →
        (employee_attendance_stats records).avg_hours_per_day * records.length
          = (employee_attendance_stats records).total_hours) ∧
      (records = [] → (employee_attendance_stats records).avg_hours_per_day = 0) ∧
      (records.filterMap (fun r => r.sign_in_time) = [] →
        (employee_attendance_stats records).avg_signin_time = "09:00") ∧
      (records.filterMap (fun r => r.sign_out_time) = [] →
        (employee_attendance_stats records).avg_signout_time = "17:00")) ∧
    (employee_attendance_stats attendance_example_records).total_days = 3 ∧
    (employee_attendance_stats attendance_example_records).total_hours = 31/2 ∧
    (employee_attendance_stats attendance_example_records).avg_hours_per_day = 31/6 ∧
    pyRound 4 ((employee_attendance_stats attendance_example_records).avg_hours_per_day)
      = 51667/10000 := by
  have hex_total : (employee_attendance_stats attendance_example_records).total_hours
      = 31/2 := by
    simp [employee_attendance_stats, attendance_example_records]
    norm_num
  have hex_avg : (employee_attendance_stats attendance_example_records).avg_hours_per_day
      = 31/6 := by
    simp [employee_attendance_stats, attendance_example_records]
    norm_num
  refine ⟨?_, by simp [employee_attendance_stats, attendance_example_records],
    hex_total, hex_avg, ?_⟩
  · intro records
    refine ⟨by simp [employee_attendance_stats], ?_, ?_, ?_, ?_, ?_, ?_⟩
    · induction records with
      | nil => simp [employee_attendance_stats]
      | cons r rest ih =>
        simp_all [employee_attendance_stats]
    · simp [employee_attendance_stats, List.countP_eq_length_filter]
    · intro hne
      have hlen : (records.length : ℚ) ≠ 0 :=
        Nat.cast_ne_zero.mpr (fun h => hne (List.length_eq_zero.mp h))
      have hpos : 0 < records.length := List.length_pos.mpr hne
      simp only [employee_attendance_stats, gt_iff_lt, hpos, if_pos]
      exact div_mul_cancel₀ _ hlen
    · intro he
      subst he
      simp [employee_attendance_stats]
    · intro h
      simp [employee_attendance_stats, h]
    · intro h
      simp [employee_attendance_stats, h]
  · rw [hex_avg]
    have hfl : ⌊(31/6 : ℚ) * 10 ^ 4⌋ = 51666 := by
      rw [Int.floor_eq_iff]
      norm_num
    have := roundHalfEven_eq_of_gt ((31/6 : ℚ) * 10 ^ 4) 51666 hfl (by norm_num)
    rw [pyRound, this]
    norm_num

/-- Witness for C9: the example record set is nonempty and its average
times the day count reproduces the total, per the general part of the
statement. -/
theorem employee_attendance_stats_spec_witness :
    attendance_example_records ≠ [] ∧
    (employee_attendance_stats attendance_example_records).avg_hours_per_day
        * attendance_example_records.length
      = (employee_attendance_stats attendance_example_records).total_hours :=
  ⟨by simp [attendance_example_records],
   (employee_attendance_stats_spec.1 attendance_example_records).2.2.2.1
     (by simp [attendance_example_records])⟩
